import Mathlib

/-!
Verification development for the riya2025/Resume_generator repository.

The definitions below are a shallow embedding of `src/utils.py` and of the
call site in `src/app.py`.  External effects are represented explicitly:

* the OpenAI generation service is an oracle returning `Except String _`
  (the `.error` case covers both a raised exception and an unparsable
  response, which the source collapses into one `except` branch);
* `random.sample` is an oracle `Sampler` constrained by `SampleSpec`
  (the contract of Python's `random.sample`: a duplicate-free selection
  of the requested size drawn from the population);
* `random.choice` of a city, `random.sample(UNIVERSITY_POOL, 2)` and
  `get_random_theme()` are oracle inputs threaded as plain arguments;
* PDF bytes are abstract and modelled as `String`;
* Python strings are modelled as `String`/`List Char`; Python dicts whose
  keys may be absent are modelled as structures with `Option` fields.
-/

set_option autoImplicit false

/-! ### Character/string helpers (Python `str.lower`, substring `in`) -/

/-- Lower-casing of a character list, modelling Python `str.lower()`
(ASCII-faithful; the language names the source compares are ASCII). -/
def toLowerCL (l : List Char) : List Char := l.map Char.toLower

/-- Boolean list-prefix test on characters. -/
def isPrefixCL : List Char → List Char → Bool
  | [], _ => true
  | _ :: _, [] => false
  | a :: as, b :: bs => a == b && isPrefixCL as bs

/-- Boolean substring test on character lists, modelling Python's
`needle in haystack` for strings. -/
def containsSub (needle : List Char) : List Char → Bool
  | [] => isPrefixCL needle []
  | c :: cs => isPrefixCL needle (c :: cs) || containsSub needle cs

/-- Case-insensitive substring occurrence: models
`needle.lower() in haystack.lower()` from `generate_resume_content`. -/
def occursCI (needle haystack : String) : Bool :=
  containsSub (toLowerCL needle.data) (toLowerCL haystack.data)

/-! ### `clean_text_formatting` (src/utils.py lines 19-33)

The source applies three `re.sub` passes in order:
`\*\*(.*?)\*\*  ->  <b>\1</b>`, then `\*(.*?)\*  ->  <i>\1</i>`, then
`_(.*?)_  ->  <i>\1</i>`.  `findClose` models the non-greedy group
`(.*?)` followed by the closing marker: starting from a position just
after the opening marker it finds the shortest run of non-newline
characters (Python's `.` does not match a newline) that is followed by
the closing marker, returning the group content and the text after the
closing marker.  `subMarkerFuel` models one whole `re.sub` pass:
scanning left to right, a position where the opening marker matches and
a close is reachable emits the replacement and resumes after the match
(replacement text is not rescanned within the same pass, as in `re.sub`);
otherwise the scan advances one character.  The fuel argument only
bounds the recursion; `fuel = s.length` always suffices because every
step consumes at least one input character. -/

/-- Shortest completion of a non-greedy `(.*?)` group up to `close`. -/
def findClose (close : List Char) : List Char → Option (List Char × List Char)
  | [] => if isPrefixCL close [] then some ([], []) else none
  | c :: cs =>
    if isPrefixCL close (c :: cs) then some ([], (c :: cs).drop close.length)
    else if c == '\n' then none
    else
      match findClose close cs with
      | some (content, rest) => some (c :: content, rest)
      | none => none

/-- One `re.sub` pass for pattern `openM(.*?)close` replaced by
`tagOpen\1tagClose`, on character lists. -/
def subMarkerFuel (openM close tagOpen tagClose : List Char) :
    Nat → List Char → List Char
  | 0, s => s
  | _ + 1, [] => []
  | fuel + 1, c :: cs =>
    if isPrefixCL openM (c :: cs) then
      match findClose close ((c :: cs).drop openM.length) with
      | some (content, rest) =>
        tagOpen ++ content ++ tagClose ++
          subMarkerFuel openM close tagOpen tagClose fuel rest
      | none => c :: subMarkerFuel openM close tagOpen tagClose fuel cs
    else c :: subMarkerFuel openM close tagOpen tagClose fuel cs

/-- One `re.sub` pass with fuel instantiated to the input length. -/
def subMarkerCL (openM close tagOpen tagClose s : List Char) : List Char :=
  subMarkerFuel openM close tagOpen tagClose s.length s

/-- Embedding of `clean_text_formatting` (src/utils.py lines 19-33):
bold pass, then star-italic pass, then underscore-italic pass.  The
`isinstance` guard of the source only concerns non-string inputs and is
outside this `String`-typed model. -/
def clean_text_formatting (text : String) : String :=
  let t1 := subMarkerCL (['*', '*']) (['*', '*']) ("<b>".data) ("</b>".data) text.data
  let t2 := subMarkerCL (['*']) (['*']) ("<i>".data) ("</i>".data) t1
  let t3 := subMarkerCL (['_']) (['_']) ("<i>".data) ("</i>".data) t2
  String.mk t3

/-! ### Data model

`Candidate` models the per-candidate dict: the five keys of the entries
of `STATIC_CANDIDATES`, plus the keys that `process_single_candidate`
adds.  Keys that may be absent are `Option`-valued. -/

structure Candidate where
  name : String
  gender : String
  origin : String
  email : Option String := none
  phone : Option String := none
  location : Option String := none
  masters_university : Option String := none
  bachelors_university : Option String := none
  university : Option String := none
deriving DecidableEq, Repr

/-- The `contact` sub-dict of a generated resume. -/
structure Contact where
  email : Option String := none
  phone : Option String := none
deriving DecidableEq, Repr

/-- One entry of the `education` list of a generated resume. -/
structure EduEntry where
  degree : Option String := none
  university : Option String := none
  year : Option String := none
  details : Option String := none
deriving DecidableEq, Repr

/-- One entry of the `experience` list of a generated resume. -/
structure ExpEntry where
  company : Option String := none
  role : Option String := none
  duration : Option String := none
  description : Option (List String) := none
deriving DecidableEq, Repr

/-- One entry of the `projects` list of a generated resume. -/
structure ProjEntry where
  title : Option String := none
  description : Option (List String) := none
deriving DecidableEq, Repr

/-- The parsed resume dict returned by the generation service.  Every
top-level key of the schema is `Option`-valued because the service may
return any subset of them; the Python `{}` returned on failure is the
all-`none` record `{}`. -/
structure ResumeData where
  contact : Option Contact := none
  summary : Option String := none
  education : Option (List EduEntry) := none
  experience : Option (List ExpEntry) := none
  projects : Option (List ProjEntry) := none
  skills : Option (List String) := none
  certificates : Option (List String) := none
  languages : Option (List String) := none
deriving DecidableEq, Repr

/-- The theme dict built by `get_random_theme` (src/utils.py lines
253-272).  Colors and fonts are carried as their names; alignment is the
source's 0/1 code.  The random sampling itself is modelled as an oracle:
the theme a task uses is an input of the task embedding. -/
structure Theme where
  resume_header_color : String
  resume_company_style : String
  resume_name_font : String
  resume_name_alignment : Nat
  resume_header_case : String
  cl_header_alignment : Nat
  cl_header_font : String
  cl_header_color : String
deriving DecidableEq, Repr

/-- A concrete theme value, used by witnesses (one of the values
`get_random_theme` can produce). -/
def sampleTheme : Theme :=
  ⟨"darkblue", "Italic", "Helvetica-Bold", 0, "UPPER", 0, "Helvetica-Bold", "darkblue"⟩

/-- The tuple returned by `process_single_candidate`:
`(candidate, resume_data, cl_content, theme)`. -/
structure TaskResult where
  cand : Candidate
  resume : ResumeData
  cover : String
  theme : Theme
deriving DecidableEq, Repr

/-- The five selectable countries (keys of `COUNTRY_DATA`). -/
inductive Country
  | Germany
  | France
  | Italy
  | Netherlands
  | Finland
deriving DecidableEq, Repr

def countryName : Country → String
  | .Germany => "Germany"
  | .France => "France"
  | .Italy => "Italy"
  | .Netherlands => "Netherlands"
  | .Finland => "Finland"

/-- Per-country configuration from `COUNTRY_DATA` (src/utils.py lines
200-251).  The claims only read `cities` and `language`; the
`universities` and `companies` lists are not consulted by any claim and
are elided from the embedding. -/
structure CountryInfo where
  cities : List String
  language : String
deriving DecidableEq, Repr

def COUNTRY_DATA : Country → CountryInfo
  | .Germany =>
    ⟨["Berlin", "Munich", "Hamburg", "Frankfurt", "Stuttgart", "Cologne", "Düsseldorf"],
      "German"⟩
  | .France =>
    ⟨["Paris", "Lyon", "Marseille", "Toulouse", "Nice", "Bordeaux", "Lille"],
      "French"⟩
  | .Italy =>
    ⟨["Rome", "Milan", "Naples", "Turin", "Florence", "Bologna", "Venice"],
      "Italian"⟩
  | .Netherlands =>
    ⟨["Amsterdam", "Rotterdam", "The Hague", "Utrecht", "Eindhoven", "Groningen", "Maastricht"],
      "Dutch"⟩
  | .Finland =>
    ⟨["Helsinki", "Espoo", "Tampere", "Vantaa", "Oulu", "Turku", "Jyväskylä"],
      "Finnish"⟩

/-- The fixed candidate pool `STATIC_CANDIDATES` (src/utils.py lines
50-178), 18 entries. -/
def STATIC_CANDIDATES : List Candidate := [
  { name := "Jonas Schneider", gender := "Male", origin := "White",
    email := some ("jonasschneid1@outlook.com"), phone := some ("+49 15510 118262") },
  { name := "Alexander Meyer", gender := "Male", origin := "White",
    email := some ("m.alexander2303@outlook.com"), phone := some ("+49 1523 8425990") },
  { name := "Niklas Schmidt", gender := "Male", origin := "White",
    email := some ("nikschmidt22@hotmail.com"), phone := some ("+49 163 2921406") },
  { name := "Marie Fischer", gender := "Female", origin := "White",
    email := some ("marie-fischerr@outlook.com"), phone := some ("+49 1575 4611441") },
  { name := "Julia Weber", gender := "Female", origin := "White",
    email := some ("juliaweber00@hotmail.com"), phone := some ("+49 176 25402552") },
  { name := "Katharina Müller", gender := "Female", origin := "White",
    email := some ("kath.muller@outlook.com"), phone := some ("+49 1525 1769788") },
  { name := "Arjun Patel", gender := "Male", origin := "Asian",
    email := some ("patel.arj@outlook.com"), phone := some ("+49 1522 6704107") },
  { name := "Rahul Sharma", gender := "Male", origin := "Asian",
    email := some ("sharma.rahul33@outlook.com"), phone := some ("+49 1517 2332314") },
  { name := "Min Jun Jeong", gender := "Male", origin := "Asian",
    email := some ("jeong.minjun@outlook.com"), phone := some ("+49 1522 7989642") },
  { name := "Priya Kumar", gender := "Female", origin := "Asian",
    email := some ("priyakumar81@outlook.com"), phone := some ("+49 1521 6421918") },
  { name := "Seoyeon Kim", gender := "Female", origin := "Asian",
    email := some ("kim.seoyeon7@outlook.com"), phone := some ("+49 176 43881053") },
  { name := "Minseo Choi", gender := "Female", origin := "Asian",
    email := some ("choi.min-seo@outlook.com"), phone := some ("+49 176 74525750") },
  { name := "Santiago Ramirez", gender := "Male", origin := "African",
    email := some ("santis.ramirez@outlook.com"), phone := some ("+49 176 60874514") },
  { name := "Matheus Pereira", gender := "Male", origin := "Latin American",
    email := some ("mathe.pereira@outlook.com"), phone := some ("+49 15510 624789") },
  { name := "Emmanuel Adebayo", gender := "Male", origin := "Latin American",
    email := some ("emmanuel.adeb.work@outlook.com"), phone := some ("+49 162 6664232") },
  { name := "Adriana Ferreira", gender := "Female", origin := "African",
    email := some ("adriana.ferreira.work@outlook.com"), phone := some ("+49 176 76329485") },
  { name := "Maria Fernanda Reyes", gender := "Female", origin := "Latin American",
    email := some ("maria.fern.reyes@outlook.com"), phone := some ("+49 162 1529823") },
  { name := "Chioma Okafor", gender := "Female", origin := "Latin American",
    email := some ("chioma.okafor4@outlook.com"), phone := some ("+49 174 6723390") }]

/-! ### Randomness oracle for `random.sample` -/

/-- A sampling oracle standing for Python's `random.sample`. -/
def Sampler : Type := List Candidate → Nat → List Candidate

/-- Contract of `random.sample(population, k)` for `k ≤ len(population)`
(every call in the source clamps `k` with `min`): the selection has
exactly `k` elements, is drawn from the population, and is
duplicate-free when the population is. -/
def SampleSpec (sample : Sampler) : Prop :=
  ∀ l k, (sample l k).length = min k l.length ∧
    (∀ x, x ∈ sample l k → x ∈ l) ∧
    (l.Nodup → (sample l k).Nodup)

/-- The deterministic sampler taking the first `k` elements; a concrete
instance of `SampleSpec` used by witnesses and counterexamples. -/
def takeSample : Sampler := fun l k => l.take k

theorem takeSample_spec : SampleSpec takeSample := by
  intro l k
  refine ⟨List.length_take k l, ?_, ?_⟩
  · intro x hx
    exact List.take_subset k l hx
  · intro h
    exact (List.take_sublist k l).nodup h

/-! ### The Selector: `generate_demographic_data` (src/utils.py 274-310)

The source receives `n` (and the client) but never reads either: the
body always builds one pick per balance cell — three female cells and
three male cells — and backfills to six if a cell was under-supplied.
The local lists `females`/`males` and the six `selected.extend` calls
appear here as the defs `femalesPool`/`malesPool` and the six `cell*`
defs, combined by `selectedCells`. -/

def femalesPool : List Candidate :=
  STATIC_CANDIDATES.filter (fun c => c.gender == "Female")

def malesPool : List Candidate :=
  STATIC_CANDIDATES.filter (fun c => c.gender == "Male")

/-- Inner helper `get_by_origin(pool, target_origins, limit)`:
`random.sample(matches, min(limit, len(matches)))` where `matches` keeps
candidates whose origin is in `target_origins`. -/
def get_by_origin (sample : Sampler) (pool : List Candidate)
    (target_origins : List String) (limit : Nat) : List Candidate :=
  let matched := pool.filter (fun c => decide (c.origin ∈ target_origins))
  sample matched (min limit matched.length)

def cellFemaleAsian (sample : Sampler) : List Candidate :=
  get_by_origin sample femalesPool (["Asian"]) 1

def cellFemaleWhite (sample : Sampler) : List Candidate :=
  get_by_origin sample femalesPool (["White"]) 1

def cellFemaleMixed (sample : Sampler) : List Candidate :=
  get_by_origin sample femalesPool (["African", "Latin American"]) 1

def cellMaleAsian (sample : Sampler) : List Candidate :=
  get_by_origin sample malesPool (["Asian"]) 1

def cellMaleWhite (sample : Sampler) : List Candidate :=
  get_by_origin sample malesPool (["White"]) 1

def cellMaleMixed (sample : Sampler) : List Candidate :=
  get_by_origin sample malesPool (["African", "Latin American"]) 1

/-- The six `selected.extend(...)` calls, in source order. -/
def selectedCells (sample : Sampler) : List Candidate :=
  cellFemaleAsian sample ++ cellFemaleWhite sample ++ cellFemaleMixed sample ++
    cellMaleAsian sample ++ cellMaleWhite sample ++ cellMaleMixed sample

/-- Embedding of `generate_demographic_data(n, client)`.  The parameter
`n` is kept for signature fidelity; as in the source, the body does not
read it.  The `client` argument is an external handle the source also
never reads and is dropped. -/
def generate_demographic_data (sample : Sampler) (n : Nat) : List Candidate :=
  let selected := selectedCells sample
  if selected.length < 6 then
    let remaining := STATIC_CANDIDATES.filter (fun c => !(selected.contains c))
    let needed := 6 - selected.length
    selected ++ sample remaining (min needed remaining.length)
  else
    selected

example : (generate_demographic_data takeSample 2).length = 6 := by decide
example : STATIC_CANDIDATES.length = 18 := by decide
example : (generate_demographic_data takeSample 2).map Candidate.name =
    ["Priya Kumar", "Marie Fischer", "Adriana Ferreira",
     "Arjun Patel", "Jonas Schneider", "Santiago Ramirez"] := by decide

/-! ### Content Generator (src/utils.py 312-539)

The two OpenAI calls are oracles.  The `.error` case of the oracle
covers a raised service exception as well as a `json.loads` failure on
the response: in the source both land in the same `except` branch. -/

/-- Oracle for the resume-generation call of `generate_resume_content`,
keyed by the inputs the prompt is built from. -/
def ResumeSvc : Type := Candidate → String → String → Country → Except String ResumeData

/-- Oracle for the cover-letter call of `generate_cover_letter_content`. -/
def ClSvc : Type := Candidate → ResumeData → String → String → Country → Except String String

/-- The `language_instruction` local of `generate_resume_content`
(src/utils.py lines 313-323), reproduced verbatim.  For Germany the
include-form is emitted unconditionally; for every other country the
include-form is emitted exactly when the country's language occurs
case-insensitively in the job description. -/
def language_instruction (target_country : Country) (job_description : String) : String :=
  let target_lang := (COUNTRY_DATA target_country).language
  if target_country = Country.Germany then
    "7. Languages: Include **German (C1)** and **English (C1)**."
  else
    let include_lang := occursCI target_lang job_description
    if include_lang then
      "7. Languages: Include **" ++ target_lang ++ " (C1)** and **English (C1/Fluent)**."
    else
      "7. Languages: DO NOT include " ++ target_lang ++
        ". Only include English and other relevant languages if applicable (but NO " ++
        target_lang ++ " unless requested in JD)."

/-- Predicate of claim C5: the languages rule of the instruction
includes the target language, meaning the rule carries the inclusion
form `Include **<language>` (the DO-NOT-include form only names the
language to forbid it). -/
def ruleIncludesLang (target_country : Country) (job_description : String) : Bool :=
  containsSub (("Include **" ++ (COUNTRY_DATA target_country).language).data)
    ((language_instruction target_country job_description).data)

/-- Embedding of `generate_resume_content` (src/utils.py 312-479).  The
function builds the prompt (whose only claim-relevant part,
`language_instruction`, is embedded above), performs exactly one service
call, and on any exception or unparsable response returns the empty dict
`{}`; no retry exists.  The prompt assembly, the random company
suggestion, and the random city draw do not influence the returned
value beyond the oracle and are not re-modelled here. -/
def generate_resume_content (svc : ResumeSvc) (candidate : Candidate)
    (job_description : String) (education_level : String)
    (target_country : Country) : ResumeData :=
  match svc candidate job_description education_level target_country with
  | .ok data => data
  | .error _ => {}

/-- The pre-`try` read of `generate_cover_letter_content` (src/utils.py
line 482): `resume_data.get('experience', [{}])[0]`.  A missing
`experience` key falls back to the default `[{}]`, whose first element
is the empty dict; a present but empty list makes the `[0]` index raise
an uncaught IndexError, modelled as `none` here.  (Entries are typed
dicts in this model, so the AttributeError a non-dict entry would raise
on `.get` has no counterpart.) -/
def experience_head (r : ResumeData) : Option ExpEntry :=
  match r.experience with
  | none => some {}
  | some [] => none
  | some (e :: _) => some e

/-- Embedding of `generate_cover_letter_content` (src/utils.py 481-539).
Before the `try` block the source computes
`company1 = resume_data.get('experience', [{}])[0].get('company', 'Unknown')`
(line 482): on a resume whose `experience` key holds an explicitly
empty list this raises an uncaught IndexError that escapes the function
— the `.error` return here.  Otherwise `company1` is drawn from the
head entry (it and the random city draw only feed the prompt, hence the
oracle input), exactly one service call is made inside the `try`, and a
service exception yields the literal placeholder string as a normal
return. -/
def generate_cover_letter_content (svc : ClSvc) (candidate : Candidate)
    (resume_data : ResumeData) (job_description : String)
    (education_level : String) (target_country : Country) :
    Except String String :=
  match experience_head resume_data with
  | none => .error ("IndexError: list index out of range")
  | some entry =>
    let _company1 := entry.company.getD ("Unknown")
    match svc candidate resume_data job_description education_level target_country with
    | .ok content => .ok content
    | .error _ => .ok ("Error generating cover letter.")

/-- Embedding of `process_single_candidate` (src/utils.py 541-569).
`city` stands for `random.choice(COUNTRY_DATA[target_country]["cities"])`,
`mUni`/`bUni` for the two draws of `random.sample(UNIVERSITY_POOL, 2)`,
and `theme` for `get_random_theme()`.  `copy.deepcopy` is value
semantics here.  After the resume call, the contact sub-dict is created
if absent and its email/phone are overwritten with the candidate's
stored values (falling back to the generated ones only when the
candidate record lacks the key, mirroring `candidate.get(k, default)`);
the cover letter is generated from the already-overwritten resume.
The cover-letter step is the task's only raise point: the IndexError
it can raise (explicitly empty `experience` list) escapes the task, so
`process_single_candidate` is fallible, and its `.error` is what the
orchestrator's `future.result()` re-raises and catches. -/
def process_single_candidate (svcR : ResumeSvc) (svcC : ClSvc)
    (city mUni bUni : String) (theme : Theme) (candidate : Candidate)
    (job_description : String) (education_level : String)
    (target_country : Country) : Except String TaskResult :=
  let candidate := { candidate with
    location := some (city ++ ", " ++ countryName target_country),
    masters_university := some mUni,
    bachelors_university := some bUni,
    university := some mUni }
  let resume_data :=
    generate_resume_content svcR candidate job_description education_level target_country
  let contact0 := resume_data.contact.getD {}
  let contact1 : Contact :=
    { email := match candidate.email with
        | some e => some e
        | none => contact0.email,
      phone := match candidate.phone with
        | some p => some p
        | none => contact0.phone }
  let resume_data := { resume_data with contact := some contact1 }
  match generate_cover_letter_content svcC candidate resume_data job_description
      education_level target_country with
  | .ok cl_content => .ok ⟨candidate, resume_data, cl_content, theme⟩
  | .error e => .error e

/-! ### Archive Packager and Batch Orchestrator (src/utils.py 571-760)

PDF rendering (`create_resume_pdf`, `create_cl_pdf`) is an external
layout library call; each is an oracle returning bytes or the exception
the library raised.  A zip archive is its list of entries
`(name, bytes)`. -/

/-- Opaque PDF bytes. -/
abbrev PdfBytes : Type := String

def RenderResume : Type := Candidate → ResumeData → Theme → Except String PdfBytes
def RenderCl : Type := Candidate → String → Theme → Except String PdfBytes

/-- The `safe_name` computation of the zip loop (src/utils.py line 733):
keep alphabetic characters and whitespace, strip surrounding whitespace,
then replace each space with an underscore.  `pyIsAlpha` models Python's
Unicode `str.isalpha` on the Latin ranges the candidate pool uses;
`pyIsSpace` models `str.isspace` on ASCII whitespace. -/
def pyIsAlpha (c : Char) : Bool :=
  c.isAlpha ||
    (0xC0 ≤ c.toNat && c.toNat ≤ 0x17F && c.toNat ≠ 0xD7 && c.toNat ≠ 0xF7)

def pyIsSpace (c : Char) : Bool :=
  c == ' ' || c == '\t' || c == '\n' || c == '\x0b' || c == '\x0c' || c == '\r'

/-- Python `str.strip()`: drop leading and trailing whitespace. -/
def pyStrip (l : List Char) : List Char :=
  ((l.dropWhile pyIsSpace).reverse.dropWhile pyIsSpace).reverse

def safe_name (name : String) : String :=
  String.mk
    (((name.data.filter (fun c => pyIsAlpha c || pyIsSpace c)) |> pyStrip).map
      (fun c => if c == ' ' then '_' else c))

example : safe_name ("Jonas Schneider") = "Jonas_Schneider" := by rfl
example : safe_name ("Katharina Müller") = "Katharina_Müller" := by rfl
example : safe_name (" A. B-C  ") = "A_BC" := by rfl

/-- Contact enrichment at the top of the zip loop (src/utils.py
736-738): when the resume dict has a `contact` key the candidate's
email/phone are set to the contact values with `''` as `.get` default. -/
def enrichContact (t : TaskResult) : Candidate :=
  match t.resume.contact with
  | some ct =>
    { t.cand with email := some (ct.email.getD ("")), phone := some (ct.phone.getD ("")) }
  | none => t.cand

/-- The zip-writing loop of `batch_generate` (src/utils.py 729-752): for
each surviving tuple, derive the safe base name, enrich the candidate,
then try rendering each of the two documents — a render exception skips
only that entry. -/
def zipEntries (renderR : RenderResume) (renderC : RenderCl) :
    List TaskResult → List (String × PdfBytes)
  | [] => []
  | t :: ts =>
    let sn := safe_name t.cand.name
    let cand := enrichContact t
    let resumeEntry :=
      match renderR cand t.resume t.theme with
      | .ok b => [("Resumes/" ++ sn ++ "_Resume.pdf", b)]
      | .error _ => []
    let clEntry :=
      match renderC cand t.cover t.theme with
      | .ok b => [("Cover_Letters/" ++ sn ++ "_CoverLetter.pdf", b)]
      | .error _ => []
    resumeEntry ++ clEntry ++ zipEntries renderR renderC ts

/-- Embedding of `batch_generate` (src/utils.py 705-760).  `task` is the
submitted thread body — in the source, `process_single_candidate`
applied to the per-candidate random draws; its `.error` case is the
exception `future.result()` re-raises, which the orchestrator catches
and logs, dropping that candidate.  Completion order of the worker pool
is modelled as submission order; no claim depends on result order.
`timestamp` stands for `datetime.now().strftime(...)`.  The source
returns `None` when the selector yields no candidates and otherwise the
triple `(zip_buffer, results, zip_filename)`; the buffer is represented
by its entry list. -/
def batch_generate (sample : Sampler) (task : Candidate → Except String TaskResult)
    (renderR : RenderResume) (renderC : RenderCl)
    (job_description : String) (count : Nat) (education_level : String)
    (target_country : Country) (timestamp : String) :
    Option (List (String × PdfBytes) × List TaskResult × String) :=
  let count := if count < 2 then 2 else count
  let candidates := generate_demographic_data sample count
  if candidates.isEmpty then
    none
  else
    let results := candidates.filterMap (fun c => (task c).toOption)
    let entries := zipEntries renderR renderC results
    some (entries, results,
      "applications_" ++ String.mk (toLowerCL (countryName target_country).data) ++
        "_" ++ timestamp ++ ".zip")

/-- Entry list of a `batch_generate` return value (empty for `None`). -/
def entriesOf (o : Option (List (String × PdfBytes) × List TaskResult × String)) :
    List (String × PdfBytes) :=
  match o with
  | some (entries, _, _) => entries
  | none => []

/-- Result list of a `batch_generate` return value (empty for `None`). -/
def resultsOf (o : Option (List (String × PdfBytes) × List TaskResult × String)) :
    List TaskResult :=
  match o with
  | some (_, results, _) => results
  | none => []

/-- Modelled from the spec (§3, ResumeDocument): a resume record
conforms to the schema when every fixed top-level field is present, the
education list is non-empty, and there are exactly four experience and
four project entries.  (Per-entry field constraints are not needed by
any claim and are left out; adding them would only make conformance
stricter.) -/
def conformsResumeSchema (r : ResumeData) : Bool :=
  r.contact.isSome && r.summary.isSome &&
    (match r.education with
      | some l => !l.isEmpty
      | none => false) &&
    (match r.experience with
      | some l => l.length == 4
      | none => false) &&
    (match r.projects with
      | some l => l.length == 4
      | none => false) &&
    r.skills.isSome && r.certificates.isSome && r.languages.isSome

/-! ### Positional-call model for the app entry point (src/app.py 38-55)

`batch_generate` is a plain `def` with five parameters, no defaults and
no varargs; the generate-button handler calls it with six positional
arguments.  CPython binds positional arguments before running the body:
a count mismatch raises `TypeError` at the call site, so the body (and
hence any candidate processing) never starts. -/

inductive PyCallOutcome (α : Type)
  | typeError
  | runs (env : α)
deriving DecidableEq, Repr

/-- Binding of positional arguments to a parameter list without
defaults or varargs: succeeds iff the counts agree. -/
def bindPositional (params args : List String) :
    PyCallOutcome (List (String × String)) :=
  if params.length = args.length then .runs (params.zip args) else .typeError

/-- Parameter list of `def batch_generate(...)` (src/utils.py 705). -/
def batch_generate_params : List String :=
  ["job_description", "count", "education_level", "target_country", "client"]

/-- Positional arguments of the call in the generate-button handler
(src/app.py 47). -/
def app_generate_call_args : List String :=
  ["job_description", "int(num_candidates)", "education_level",
    "int(graduation_year)", "target_country", "client"]

/-- Arity of the tuple `batch_generate` returns (src/utils.py 760)
versus the arity of the unpacking at its call site (src/app.py 47). -/
def batch_generate_return_arity : Nat := 3

def app_generate_unpack_arity : Nat := 2

/-! ### Lemmas about the Selector -/

theorem gbo_length (sample : Sampler) (hs : SampleSpec sample)
    (pool : List Candidate) (t : List String) (k : Nat) :
    (get_by_origin sample pool t k).length =
      min k (pool.filter (fun c => decide (c.origin ∈ t))).length := by
  unfold get_by_origin
  have h := (hs (pool.filter (fun c => decide (c.origin ∈ t)))
    (min k (pool.filter (fun c => decide (c.origin ∈ t))).length)).1
  simp only [h]
  rw [Nat.min_assoc, Nat.min_self]

theorem mem_get_by_origin {sample : Sampler} {pool : List Candidate}
    {t : List String} {k : Nat} {x : Candidate} (hs : SampleSpec sample)
    (hx : x ∈ get_by_origin sample pool t k) : x ∈ pool ∧ x.origin ∈ t := by
  unfold get_by_origin at hx
  have h := (hs _ _).2.1 x hx
  rw [List.mem_filter] at h
  exact ⟨h.1, of_decide_eq_true h.2⟩

theorem nodup_get_by_origin {sample : Sampler} {pool : List Candidate}
    {t : List String} {k : Nat} (hs : SampleSpec sample) (hpool : pool.Nodup) :
    (get_by_origin sample pool t k).Nodup := by
  unfold get_by_origin
  exact (hs _ _).2.2 (hpool.filter _)

theorem mem_femalesPool {x : Candidate} (hx : x ∈ femalesPool) :
    x.gender = "Female" := by
  rw [femalesPool, List.mem_filter] at hx
  exact eq_of_beq hx.2

theorem mem_malesPool {x : Candidate} (hx : x ∈ malesPool) :
    x.gender = "Male" := by
  rw [malesPool, List.mem_filter] at hx
  exact eq_of_beq hx.2

/-- Which balance cell a candidate belongs to, by gender and origin:
used only in the proofs to separate the six selection cells. -/
def cellKey (x : Candidate) : Nat :=
  (if x.gender = "Female" then 0 else 3) +
    (if x.origin = "Asian" then 0 else if x.origin = "White" then 1 else 2)

theorem key_cellFemaleAsian {sample : Sampler} {x : Candidate} (hs : SampleSpec sample)
    (hx : x ∈ cellFemaleAsian sample) : cellKey x = 0 := by
  obtain ⟨hp, ho⟩ := mem_get_by_origin hs hx
  have h1 := mem_femalesPool hp
  have h2 : x.origin = "Asian" := by simpa using ho
  simp [cellKey, h1, h2]

theorem key_cellFemaleWhite {sample : Sampler} {x : Candidate} (hs : SampleSpec sample)
    (hx : x ∈ cellFemaleWhite sample) : cellKey x = 1 := by
  obtain ⟨hp, ho⟩ := mem_get_by_origin hs hx
  have h1 := mem_femalesPool hp
  have h2 : x.origin = "White" := by simpa using ho
  simp [cellKey, h1, h2]

theorem key_cellFemaleMixed {sample : Sampler} {x : Candidate} (hs : SampleSpec sample)
    (hx : x ∈ cellFemaleMixed sample) : cellKey x = 2 := by
  obtain ⟨hp, ho⟩ := mem_get_by_origin hs hx
  have h1 := mem_femalesPool hp
  have h2 : x.origin = "African" ∨ x.origin = "Latin American" := by simpa using ho
  rcases h2 with h2 | h2 <;> simp [cellKey, h1, h2]

theorem key_cellMaleAsian {sample : Sampler} {x : Candidate} (hs : SampleSpec sample)
    (hx : x ∈ cellMaleAsian sample) : cellKey x = 3 := by
  obtain ⟨hp, ho⟩ := mem_get_by_origin hs hx
  have h1 := mem_malesPool hp
  have h2 : x.origin = "Asian" := by simpa using ho
  simp [cellKey, h1, h2]

theorem key_cellMaleWhite {sample : Sampler} {x : Candidate} (hs : SampleSpec sample)
    (hx : x ∈ cellMaleWhite sample) : cellKey x = 4 := by
  obtain ⟨hp, ho⟩ := mem_get_by_origin hs hx
  have h1 := mem_malesPool hp
  have h2 : x.origin = "White" := by simpa using ho
  simp [cellKey, h1, h2]

theorem key_cellMaleMixed {sample : Sampler} {x : Candidate} (hs : SampleSpec sample)
    (hx : x ∈ cellMaleMixed sample) : cellKey x = 5 := by
  obtain ⟨hp, ho⟩ := mem_get_by_origin hs hx
  have h1 := mem_malesPool hp
  have h2 : x.origin = "African" ∨ x.origin = "Latin American" := by simpa using ho
  rcases h2 with h2 | h2 <;> simp [cellKey, h1, h2]

theorem disjoint_of_keys {l₁ l₂ : List Candidate} {i j : Nat}
    (h₁ : ∀ x ∈ l₁, cellKey x = i) (h₂ : ∀ x ∈ l₂, cellKey x = j)
    (hij : i ≠ j) : List.Disjoint l₁ l₂ :=
  fun x hx hy => hij (((h₁ x hx).symm.trans (h₂ x hy)))

theorem selectedCells_length (sample : Sampler) (hs : SampleSpec sample) :
    (selectedCells sample).length = 6 := by
  have h1 : (cellFemaleAsian sample).length = 1 := by
    rw [cellFemaleAsian, gbo_length sample hs]; decide
  have h2 : (cellFemaleWhite sample).length = 1 := by
    rw [cellFemaleWhite, gbo_length sample hs]; decide
  have h3 : (cellFemaleMixed sample).length = 1 := by
    rw [cellFemaleMixed, gbo_length sample hs]; decide
  have h4 : (cellMaleAsian sample).length = 1 := by
    rw [cellMaleAsian, gbo_length sample hs]; decide
  have h5 : (cellMaleWhite sample).length = 1 := by
    rw [cellMaleWhite, gbo_length sample hs]; decide
  have h6 : (cellMaleMixed sample).length = 1 := by
    rw [cellMaleMixed, gbo_length sample hs]; decide
  simp [selectedCells, h1, h2, h3, h4, h5, h6]

theorem gdd_eq_cells (sample : Sampler) (hs : SampleSpec sample) (n : Nat) :
    generate_demographic_data sample n = selectedCells sample := by
  simp [generate_demographic_data, selectedCells_length sample hs]

theorem gdd_length (sample : Sampler) (hs : SampleSpec sample) (n : Nat) :
    (generate_demographic_data sample n).length = 6 := by
  rw [gdd_eq_cells sample hs n]
  exact selectedCells_length sample hs

theorem gdd_nodup (sample : Sampler) (hs : SampleSpec sample) (n : Nat) :
    (generate_demographic_data sample n).Nodup := by
  rw [gdd_eq_cells sample hs n]
  have hSN : STATIC_CANDIDATES.Nodup := by decide
  have hF : femalesPool.Nodup := hSN.filter _
  have hM : malesPool.Nodup := hSN.filter _
  have nFA : (cellFemaleAsian sample).Nodup := nodup_get_by_origin hs hF
  have nFW : (cellFemaleWhite sample).Nodup := nodup_get_by_origin hs hF
  have nFM : (cellFemaleMixed sample).Nodup := nodup_get_by_origin hs hF
  have nMA : (cellMaleAsian sample).Nodup := nodup_get_by_origin hs hM
  have nMW : (cellMaleWhite sample).Nodup := nodup_get_by_origin hs hM
  have nMM : (cellMaleMixed sample).Nodup := nodup_get_by_origin hs hM
  have kFA : ∀ x ∈ cellFemaleAsian sample, cellKey x = 0 :=
    fun x hx => key_cellFemaleAsian hs hx
  have kFW : ∀ x ∈ cellFemaleWhite sample, cellKey x = 1 :=
    fun x hx => key_cellFemaleWhite hs hx
  have kFM : ∀ x ∈ cellFemaleMixed sample, cellKey x = 2 :=
    fun x hx => key_cellFemaleMixed hs hx
  have kMA : ∀ x ∈ cellMaleAsian sample, cellKey x = 3 :=
    fun x hx => key_cellMaleAsian hs hx
  have kMW : ∀ x ∈ cellMaleWhite sample, cellKey x = 4 :=
    fun x hx => key_cellMaleWhite hs hx
  have kMM : ∀ x ∈ cellMaleMixed sample, cellKey x = 5 :=
    fun x hx => key_cellMaleMixed hs hx
  unfold selectedCells
  refine List.Nodup.append (List.Nodup.append (List.Nodup.append (List.Nodup.append
    (List.Nodup.append nFA nFW ?_) nFM ?_) nMA ?_) nMW ?_) nMM ?_
  · exact disjoint_of_keys kFA kFW (by decide)
  · rw [List.disjoint_append_left]
    exact ⟨disjoint_of_keys kFA kFM (by decide), disjoint_of_keys kFW kFM (by decide)⟩
  · rw [List.disjoint_append_left, List.disjoint_append_left]
    exact ⟨⟨disjoint_of_keys kFA kMA (by decide), disjoint_of_keys kFW kMA (by decide)⟩,
      disjoint_of_keys kFM kMA (by decide)⟩
  · rw [List.disjoint_append_left, List.disjoint_append_left, List.disjoint_append_left]
    exact ⟨⟨⟨disjoint_of_keys kFA kMW (by decide), disjoint_of_keys kFW kMW (by decide)⟩,
      disjoint_of_keys kFM kMW (by decide)⟩, disjoint_of_keys kMA kMW (by decide)⟩
  · rw [List.disjoint_append_left, List.disjoint_append_left, List.disjoint_append_left,
      List.disjoint_append_left]
    exact ⟨⟨⟨⟨disjoint_of_keys kFA kMM (by decide), disjoint_of_keys kFW kMM (by decide)⟩,
      disjoint_of_keys kFM kMM (by decide)⟩, disjoint_of_keys kMA kMM (by decide)⟩,
      disjoint_of_keys kMW kMM (by decide)⟩

/-! ### Lemmas about the orchestrator -/

theorem length_filterMap_toOption (task : Candidate → Except String TaskResult)
    (l : List Candidate) :
    (l.filterMap (fun c => (task c).toOption)).length =
      l.countP (fun c => (task c).toOption.isSome) := by
  induction l with
  | nil => rfl
  | cons c cs ih =>
    cases h : (task c).toOption <;>
      simp [List.filterMap_cons, List.countP_cons, h, ih]

theorem countP_isSome_add_countP_not (task : Candidate → Except String TaskResult)
    (l : List Candidate) :
    l.countP (fun c => (task c).toOption.isSome) +
      l.countP (fun c => (task c).toOption.isNone) = l.length := by
  induction l with
  | nil => rfl
  | cons c cs ih =>
    cases h : (task c).toOption <;>
      simp [List.countP_cons, h] <;> omega

theorem batch_generate_eq (sample : Sampler) (hs : SampleSpec sample)
    (task : Candidate → Except String TaskResult)
    (renderR : RenderResume) (renderC : RenderCl)
    (jd : String) (count : Nat) (edu : String) (country : Country) (ts : String) :
    batch_generate sample task renderR renderC jd count edu country ts =
      some (zipEntries renderR renderC
          ((generate_demographic_data sample (if count < 2 then 2 else count)).filterMap
            (fun c => (task c).toOption)),
        (generate_demographic_data sample (if count < 2 then 2 else count)).filterMap
          (fun c => (task c).toOption),
        "applications_" ++ String.mk (toLowerCL (countryName country).data) ++
          "_" ++ ts ++ ".zip") := by
  have hlen := gdd_length sample hs (if count < 2 then 2 else count)
  have hne : (generate_demographic_data sample (if count < 2 then 2 else count)).isEmpty = false := by
    cases h : generate_demographic_data sample (if count < 2 then 2 else count) with
    | nil => rw [h] at hlen; simp at hlen
    | cons a l => rfl
  simp [batch_generate, hne]

/-! ### Concrete oracles used by witnesses and counterexamples -/

/-- A service whose every resume call fails (connection error or
unparsable response). -/
def failSvcR : ResumeSvc := fun _ _ _ _ => .error ("APIConnectionError")

/-- A service whose every cover-letter call fails. -/
def failSvcC : ClSvc := fun _ _ _ _ _ => .error ("APIConnectionError")

/-- A submitted task that raises for every candidate. -/
def failTask : Candidate → Except String TaskResult := fun _ => .error ("worker raised")

/-- Renderers that always succeed. -/
def okRenderR : RenderResume := fun _ _ _ => .ok ("resume pdf bytes")

def okRenderC : RenderCl := fun _ _ _ => .ok ("cover letter pdf bytes")

/-- The task body `process_single_candidate` itself, applied to
always-failing generation services and fixed random draws: every
generation call fails, yet the task completes with the degraded tuple
(a failing resume call yields an `experience`-free record, so the
cover-letter step's pre-`try` read cannot raise). -/
def degradedTask : Candidate → Except String TaskResult := fun c =>
  process_single_candidate failSvcR failSvcC ("Berlin")
    ("Technical University of Munich") ("RWTH Aachen University") sampleTheme c
    ("Backend Engineer role") ("Master of Science in Computer Science") Country.Germany

/-- A task that raises for exactly one of the six selected candidates
(the first cell pick under `takeSample`) and completes for the rest. -/
def oneFailTask : Candidate → Except String TaskResult := fun c =>
  if c.name == "Priya Kumar" then .error ("mocked generation raise")
  else degradedTask c

/-- Placeholder values for `getD`-style projections in witnesses. -/
def dummyCand : Candidate := { name := "", gender := "", origin := "" }

def dummyResult : TaskResult := ⟨dummyCand, {}, "", sampleTheme⟩

example : ((generate_demographic_data takeSample 6).countP
    (fun c => (oneFailTask c).toOption.isNone)) = 1 := by decide

/-! ### Claim theorems -/

/-- C1 counterexample: with the fixed pool the Selector returns six
candidates, and when every submitted task fails `batch_generate` does
not report a failure — it returns a successful triple whose archive has
zero entries and whose result list is empty, contradicting both "zero
successes is reported as a batch failure" and "a successful run always
yields a non-empty archive". -/
theorem claim1_zero_success_counterexample :
    batch_generate takeSample failTask okRenderR okRenderC
        ("Seeking a Senior Backend Engineer") 6
        ("Master of Science in Computer Science") Country.Germany ("0101_000000") =
      some ([], [], "applications_germany_0101_000000.zip") := by decide

/-- C1 (amended): `batch_generate` returns `None` only when the
Selector yields no candidates; with the fixed 18-candidate pool the
Selector always yields six, so every run returns a triple, and when
zero tasks complete successfully that triple is an empty archive with
an empty result list — an empty success, not an explicit failure. -/
theorem claim1_zero_success_amended (sample : Sampler) (hs : SampleSpec sample)
    (task : Candidate → Except String TaskResult)
    (renderR : RenderResume) (renderC : RenderCl)
    (jd : String) (count : Nat) (edu : String) (country : Country) (ts : String)
    (hfail : ∀ c, (task c).toOption = none) :
    batch_generate sample task renderR renderC jd count edu country ts =
      some ([], [],
        "applications_" ++ String.mk (toLowerCL (countryName country).data) ++
          "_" ++ ts ++ ".zip") := by
  rw [batch_generate_eq sample hs task renderR renderC jd count edu country ts]
  have hnil : (generate_demographic_data sample (if count < 2 then 2 else count)).filterMap
      (fun c => (task c).toOption) = [] := by
    rw [List.filterMap_eq_nil_iff]
    exact fun a _ => hfail a
  rw [hnil]
  rfl

/-- C1 amended witness at concrete inputs. -/
theorem claim1_zero_success_amended_witness :
    batch_generate takeSample failTask okRenderR okRenderC
        ("data engineer") 3 ("Bachelor of Science in Computer Science")
        Country.France ("0202_000000") =
      some ([], [], "applications_france_0202_000000.zip") := by
  exact claim1_zero_success_amended takeSample takeSample_spec failTask okRenderR okRenderC
    ("data engineer") 3 ("Bachelor of Science in Computer Science")
    Country.France ("0202_000000") (fun _ => rfl)

/-- C2 counterexample: the Selector ignores the requested count.  With
the take-first sampler and requested count N = 2 it returns 6
candidates, not min(2, 18) = 2. -/
theorem claim2_selector_counterexample :
    ¬ ((generate_demographic_data takeSample 2).length =
        min 2 STATIC_CANDIDATES.length) := by decide

/-- C2 (amended): for every requested count N (the body never reads N)
and every sampler satisfying the `random.sample` contract, the Selector
returns exactly 6 pairwise-distinct candidates: one per balance cell,
with no backfill needed because each of the six cells of the fixed pool
holds three candidates. -/
theorem claim2_selector_amended (sample : Sampler) (hs : SampleSpec sample) (n : Nat) :
    (generate_demographic_data sample n).length = 6 ∧
      (generate_demographic_data sample n).Nodup :=
  ⟨gdd_length sample hs n, gdd_nodup sample hs n⟩

/-- C2 amended witness at concrete inputs. -/
theorem claim2_selector_amended_witness :
    (generate_demographic_data takeSample 7).length = 6 ∧
      (generate_demographic_data takeSample 7).Nodup :=
  claim2_selector_amended takeSample takeSample_spec 7

/-- C3: a task exception is absorbed at the orchestrator boundary.
When exactly one of the six selected candidates' tasks raises,
`batch_generate` still returns a triple (no exception escapes — the
embedding of the orchestrator is a total function whose only failure
value, `none`, is not produced), the result list has exactly 5 entries,
and every candidate whose task completed has its tuple in the result
list. -/
theorem claim3_task_isolation (sample : Sampler) (hs : SampleSpec sample)
    (task : Candidate → Except String TaskResult)
    (renderR : RenderResume) (renderC : RenderCl)
    (jd : String) (count : Nat) (edu : String) (country : Country) (ts : String)
    (hone : (generate_demographic_data sample (if count < 2 then 2 else count)).countP
        (fun c => (task c).toOption.isNone) = 1) :
    (batch_generate sample task renderR renderC jd count edu country ts).isSome = true ∧
    (resultsOf (batch_generate sample task renderR renderC jd count edu country ts)).length = 5 ∧
    ∀ c ∈ generate_demographic_data sample (if count < 2 then 2 else count),
      ∀ t, task c = .ok t →
        t ∈ resultsOf (batch_generate sample task renderR renderC jd count edu country ts) := by
  rw [batch_generate_eq sample hs task renderR renderC jd count edu country ts]
  refine ⟨rfl, ?_, ?_⟩
  · show ((generate_demographic_data sample (if count < 2 then 2 else count)).filterMap
      (fun c => (task c).toOption)).length = 5
    rw [length_filterMap_toOption]
    have htot := countP_isSome_add_countP_not task
      (generate_demographic_data sample (if count < 2 then 2 else count))
    have hlen := gdd_length sample hs (if count < 2 then 2 else count)
    omega
  · intro c hc t ht
    show t ∈ (generate_demographic_data sample (if count < 2 then 2 else count)).filterMap
      (fun c => (task c).toOption)
    exact List.mem_filterMap.mpr ⟨c, hc, by rw [ht]; rfl⟩

/-- C3 witness: concrete run in which the task for exactly one of the
six selected candidates raises; five tuples survive. -/
theorem claim3_task_isolation_witness :
    (resultsOf (batch_generate takeSample oneFailTask okRenderR okRenderC
        ("Backend Engineer role") 6 ("Master of Science in Computer Science")
        Country.Germany ("0101_000000"))).length = 5 :=
  (claim3_task_isolation takeSample takeSample_spec oneFailTask okRenderR okRenderC
    ("Backend Engineer role") 6 ("Master of Science in Computer Science")
    Country.Germany ("0101_000000") (by decide)).2.1

/-- C4 counterexample: when the generation service fails for every
candidate the tasks still complete, and all six surfaced tuples carry a
resume record that does not conform to the ResumeDocument schema (it has
only the injected contact data) — incompletely-valid entries are
surfaced, not excluded. -/
theorem claim4_full_validity_counterexample :
    (resultsOf (batch_generate takeSample degradedTask okRenderR okRenderC
        ("Backend Engineer role") 6 ("Master of Science in Computer Science")
        Country.Germany ("0101_000000"))).length = 6 ∧
    (resultsOf (batch_generate takeSample degradedTask okRenderR okRenderC
        ("Backend Engineer role") 6 ("Master of Science in Computer Science")
        Country.Germany ("0101_000000"))).all
      (fun t => !(conformsResumeSchema t.resume)) = true := by decide

/-- C4 (amended): every tuple surfaced in a batch result is exactly the
four-field tuple returned by the successfully completed task of one of
the selected candidates (so it always carries a candidate, a resume
record, a cover-letter string and a theme); a candidate is excluded iff
its task raised.  However, when a generation call failed inside the
task, the surfaced tuple's resume record may violate the document
schema: incomplete entries are surfaced rather than excluded. -/
theorem claim4_full_validity_amended (sample : Sampler)
    (task : Candidate → Except String TaskResult)
    (renderR : RenderResume) (renderC : RenderCl)
    (jd : String) (count : Nat) (edu : String) (country : Country) (ts : String)
    (t : TaskResult)
    (ht : t ∈ resultsOf (batch_generate sample task renderR renderC jd count edu country ts)) :
    ∃ c ∈ generate_demographic_data sample (if count < 2 then 2 else count),
      task c = .ok t := by
  unfold batch_generate resultsOf at ht
  by_cases hne : (generate_demographic_data sample (if count < 2 then 2 else count)).isEmpty
  · simp only [hne, if_true] at ht
    exact absurd ht (List.not_mem_nil t)
  · simp only [hne, if_false] at ht
    obtain ⟨c, hc, hok⟩ := List.mem_filterMap.mp ht
    refine ⟨c, hc, ?_⟩
    cases h : task c with
    | ok u => rw [h] at hok; simp only [Except.toOption] at hok; rw [Option.some_inj] at hok; rw [hok]
    | error e => rw [h] at hok; simp [Except.toOption] at hok

/-- C4 amended witness: the first surfaced tuple of the degraded run is
the task output of one of the six selected candidates. -/
theorem claim4_full_validity_witness :
    ∃ c ∈ generate_demographic_data takeSample (if 6 < 2 then 2 else 6),
      degradedTask c = .ok ((resultsOf (batch_generate takeSample degradedTask
        okRenderR okRenderC ("Backend Engineer role") 6
        ("Master of Science in Computer Science") Country.Germany
        ("0101_000000"))).getD 0 dummyResult) :=
  claim4_full_validity_amended takeSample degradedTask okRenderR okRenderC
    ("Backend Engineer role") 6 ("Master of Science in Computer Science")
    Country.Germany ("0101_000000")
    ((resultsOf (batch_generate takeSample degradedTask okRenderR okRenderC
      ("Backend Engineer role") 6 ("Master of Science in Computer Science")
      Country.Germany ("0101_000000"))).getD 0 dummyResult)
    (by decide)

/-- C5 counterexample: for Germany the include-form languages rule is
emitted even when the job description never mentions German, so
"included iff the language occurs in the job description" fails. -/
theorem claim5_language_rule_counterexample :
    ruleIncludesLang Country.Germany ("Seeking a Senior Backend Engineer") = true ∧
    occursCI ((COUNTRY_DATA Country.Germany).language)
      ("Seeking a Senior Backend Engineer") = false := by decide

/-- C5 (amended): for Germany the languages rule always includes German
regardless of the job description; for every other target country the
rule includes the country's language iff the language's name occurs
case-insensitively in the job description. -/
theorem claim5_language_rule_amended (country : Country) (jd : String) :
    (country = Country.Germany → ruleIncludesLang country jd = true) ∧
    (country ≠ Country.Germany →
      ruleIncludesLang country jd =
        occursCI ((COUNTRY_DATA country).language) jd) := by
  constructor
  · rintro rfl
    rfl
  · intro hne
    cases country with
    | Germany => exact absurd rfl hne
    | France =>
      cases h : occursCI ((COUNTRY_DATA Country.France).language) jd <;>
        simp only [ruleIncludesLang, language_instruction, h] <;> decide
    | Italy =>
      cases h : occursCI ((COUNTRY_DATA Country.Italy).language) jd <;>
        simp only [ruleIncludesLang, language_instruction, h] <;> decide
    | Netherlands =>
      cases h : occursCI ((COUNTRY_DATA Country.Netherlands).language) jd <;>
        simp only [ruleIncludesLang, language_instruction, h] <;> decide
    | Finland =>
      cases h : occursCI ((COUNTRY_DATA Country.Finland).language) jd <;>
        simp only [ruleIncludesLang, language_instruction, h] <;> decide

/-- C5 amended witness: for France, a job description mentioning
French (case-insensitively) yields the include-form rule. -/
theorem claim5_language_rule_witness :
    ruleIncludesLang Country.France ("Fluent FRENCH required") =
      occursCI ((COUNTRY_DATA Country.France).language) ("Fluent FRENCH required") :=
  (claim5_language_rule_amended Country.France ("Fluent FRENCH required")).2
    (by decide)

/-- C6 counterexample: the unmatched marker `**bold` does not pass
through literally — the bold pass leaves it unchanged, but the italic
pass then matches the two adjacent stars as an empty-content `*...*`
pair and rewrites them to an empty italic tag pair. -/
theorem claim6_markup_counterexample :
    clean_text_formatting ("**bold") ≠ "**bold" ∧
    clean_text_formatting ("**bold") = "<i></i>bold" := by decide

/-- C6 (amended): `clean_text_formatting` converts `**x**` to `<b>x</b>`
and `*x*`/`_x_` to `<i>x</i>`, and never raises (it is a total string
transformation).  A single unmatched `*` or `_` with no pair passes
through literally, but an unmatched `**` is consumed by the later italic
pass as an empty `<i></i>` pair rather than passing through. -/
theorem claim6_markup_amended :
    clean_text_formatting ("**bold**") = "<b>bold</b>" ∧
    clean_text_formatting ("*italic*") = "<i>italic</i>" ∧
    clean_text_formatting ("_italic_") = "<i>italic</i>" ∧
    clean_text_formatting ("a **b** and _c_ here") = "a <b>b</b> and <i>c</i> here" ∧
    clean_text_formatting ("*bold") = "*bold" ∧
    clean_text_formatting ("_bold") = "_bold" ∧
    clean_text_formatting ("**bold") = "<i></i>bold" := by
  refine ⟨rfl, rfl, rfl, rfl, rfl, rfl, rfl⟩

/-- C7: the contact override (src/utils.py 561-566) runs before the
cover-letter step — the task's only raise point — so every tuple a
candidate's task actually produces carries the candidate's stored
contact data: whenever the candidate record has stored email and phone
values, any tuple the task returns has exactly those values in its
resume contact field, whatever the generation service returned (the
service outcomes `svcR`/`svcC` are arbitrary here, including
always-failing). -/
theorem claim7_contact_override (svcR : ResumeSvc) (svcC : ClSvc)
    (city mUni bUni : String) (theme : Theme) (cand : Candidate)
    (jd edu : String) (country : Country) (e p : String) (t : TaskResult)
    (he : cand.email = some e) (hp : cand.phone = some p)
    (ht : process_single_candidate svcR svcC city mUni bUni theme
        cand jd edu country = .ok t) :
    t.resume.contact = some { email := some e, phone := some p } := by
  simp only [process_single_candidate] at ht
  split at ht
  · rw [Except.ok.injEq] at ht
    rw [← ht]
    simp [he, hp]
  · exact absurd ht (by simp)

/-- C7 witness: with always-failing generation services, the task of
the first pool candidate completes, and the tuple it produces carries
the stored contact data. -/
theorem claim7_contact_override_witness :
    ((process_single_candidate failSvcR failSvcC ("Berlin")
        ("Technical University of Munich") ("RWTH Aachen University") sampleTheme
        { name := "Jonas Schneider", gender := "Male", origin := "White",
          email := some ("jonasschneid1@outlook.com"),
          phone := some ("+49 15510 118262") }
        ("Backend Engineer role") ("Master of Science in Computer Science")
        Country.Germany).toOption.getD dummyResult).resume.contact =
      some { email := some ("jonasschneid1@outlook.com"),
             phone := some ("+49 15510 118262") } :=
  claim7_contact_override failSvcR failSvcC ("Berlin")
    ("Technical University of Munich") ("RWTH Aachen University") sampleTheme
    { name := "Jonas Schneider", gender := "Male", origin := "White",
      email := some ("jonasschneid1@outlook.com"),
      phone := some ("+49 15510 118262") }
    ("Backend Engineer role") ("Master of Science in Computer Science")
    Country.Germany ("jonasschneid1@outlook.com") ("+49 15510 118262")
    ((process_single_candidate failSvcR failSvcC ("Berlin")
        ("Technical University of Munich") ("RWTH Aachen University") sampleTheme
        { name := "Jonas Schneider", gender := "Male", origin := "White",
          email := some ("jonasschneid1@outlook.com"),
          phone := some ("+49 15510 118262") }
        ("Backend Engineer role") ("Master of Science in Computer Science")
        Country.Germany).toOption.getD dummyResult)
    rfl rfl (by rfl)

/-- C8: service failures are absorbed as claimed.  Resume side: on any
service exception or unparsable response `generate_resume_content`
returns the empty record `{}` without raising and with no retry (the
embedding performs exactly one oracle call).  Cover-letter side:
whenever the service call is actually reached — that is, the pre-`try`
experience read of line 482 succeeded, which holds for every resume
except one carrying an explicitly empty `experience` list — a service
exception yields the literal placeholder string as a normal return,
not a raise.  On the empty-experience resume the function instead
raises IndexError before any service call is made (final conjunct);
that abort is triggered by generated resume content, not by a service
failure, so it lies outside the claim's guard.  With both services
failing, the candidate's task still completes with a full tuple whose
cover slot holds the placeholder and whose theme is attached — neither
service failure aborts the task or the batch. -/
theorem claim8_generation_failure (svcR : ResumeSvc) (svcC : ClSvc)
    (city mUni bUni : String) (theme : Theme) (cand : Candidate)
    (resume : ResumeData) (jd edu : String) (country : Country) (eR eC : String)
    (hR : ∀ c, svcR c jd edu country = .error eR)
    (hC : ∀ c r, svcC c r jd edu country = .error eC) :
    generate_resume_content svcR cand jd edu country = {} ∧
    (resume.experience ≠ some [] →
      generate_cover_letter_content svcC cand resume jd edu country =
        .ok ("Error generating cover letter.")) ∧
    (process_single_candidate svcR svcC city mUni bUni theme
        cand jd edu country).map (fun t => t.cover) =
      .ok ("Error generating cover letter.") ∧
    (process_single_candidate svcR svcC city mUni bUni theme
        cand jd edu country).map (fun t => t.theme) = .ok theme ∧
    (resume.experience = some [] →
      generate_cover_letter_content svcC cand resume jd edu country =
        .error ("IndexError: list index out of range")) := by
  refine ⟨?_, ?_, ?_, ?_, ?_⟩
  · unfold generate_resume_content
    rw [hR cand]
  · intro hexp
    cases hx : resume.experience with
    | none =>
      simp only [generate_cover_letter_content, experience_head, hx, hC]
    | some l =>
      cases l with
      | nil => exact absurd hx hexp
      | cons a as =>
        simp only [generate_cover_letter_content, experience_head, hx, hC]
  · simp only [process_single_candidate, generate_resume_content,
      generate_cover_letter_content, experience_head, hR, hC, Except.map]
  · simp only [process_single_candidate, generate_resume_content,
      generate_cover_letter_content, experience_head, hR, hC, Except.map]
  · intro hx
    simp only [generate_cover_letter_content, experience_head, hx]

/-- C8 witness at concrete failing services: the empty resume `{}`
(what a failed resume generation yields) takes the placeholder path,
the task completes with the placeholder in its cover slot, and the
explicitly-empty-experience resume takes the IndexError path. -/
theorem claim8_generation_failure_witness :
    generate_resume_content failSvcR dummyCand ("Backend Engineer role")
      ("Master of Science in Computer Science") Country.Germany = {} ∧
    generate_cover_letter_content failSvcC dummyCand {} ("Backend Engineer role")
      ("Master of Science in Computer Science") Country.Germany =
      .ok ("Error generating cover letter.") ∧
    (process_single_candidate failSvcR failSvcC ("Berlin")
        ("Technical University of Munich") ("RWTH Aachen University") sampleTheme
        dummyCand ("Backend Engineer role")
        ("Master of Science in Computer Science") Country.Germany).map
      (fun t => t.cover) = .ok ("Error generating cover letter.") ∧
    generate_cover_letter_content failSvcC dummyCand { experience := some [] }
      ("Backend Engineer role") ("Master of Science in Computer Science")
      Country.Germany = .error ("IndexError: list index out of range") :=
  have h1 := claim8_generation_failure failSvcR failSvcC ("Berlin")
    ("Technical University of Munich") ("RWTH Aachen University") sampleTheme
    dummyCand {} ("Backend Engineer role")
    ("Master of Science in Computer Science") Country.Germany
    ("APIConnectionError") ("APIConnectionError")
    (fun _ => rfl) (fun _ _ => rfl)
  have h2 := claim8_generation_failure failSvcR failSvcC ("Berlin")
    ("Technical University of Munich") ("RWTH Aachen University") sampleTheme
    dummyCand { experience := some [] } ("Backend Engineer role")
    ("Master of Science in Computer Science") Country.Germany
    ("APIConnectionError") ("APIConnectionError")
    (fun _ => rfl) (fun _ _ => rfl)
  ⟨h1.1, h1.2.1 (by decide), h1.2.2.1, h2.2.2.2.2 rfl⟩

/-- C9: for a batch result of K surviving candidates whose safe names
are pairwise distinct and whose renders all succeed, the archive holds
exactly 2K entries — for each tuple, in order, one
`Resumes/<base>_Resume.pdf` and one `Cover_Letters/<base>_CoverLetter.pdf`
where `<base>` is `safe_name` of the candidate's name (letters and
whitespace kept, stripped, spaces replaced by underscores). -/
theorem claim9_archive_layout (renderR : RenderResume) (renderC : RenderCl)
    (results : List TaskResult)
    (hok : ∀ t ∈ results,
      (renderR (enrichContact t) t.resume t.theme).isOk = true ∧
      (renderC (enrichContact t) t.cover t.theme).isOk = true)
    (hdistinct : (results.map (fun t => safe_name t.cand.name)).Nodup) :
    ((zipEntries renderR renderC results).map Prod.fst =
      results.flatMap (fun t =>
        ["Resumes/" ++ safe_name t.cand.name ++ "_Resume.pdf",
         "Cover_Letters/" ++ safe_name t.cand.name ++ "_CoverLetter.pdf"])) ∧
    (zipEntries renderR renderC results).length = 2 * results.length := by
  clear hdistinct
  induction results with
  | nil => exact ⟨rfl, rfl⟩
  | cons t ts ih =>
    obtain ⟨hR, hC⟩ := hok t (List.mem_cons_self t ts)
    have ihh := ih (fun u hu => hok u (List.mem_cons_of_mem t hu))
    cases hr : renderR (enrichContact t) t.resume t.theme with
    | error e => rw [hr] at hR; simp [Except.isOk, Except.toBool] at hR
    | ok b =>
      cases hc : renderC (enrichContact t) t.cover t.theme with
      | error e => rw [hc] at hC; simp [Except.isOk, Except.toBool] at hC
      | ok b2 =>
        constructor
        · show ((zipEntries renderR renderC (t :: ts)).map Prod.fst = _)
          simp only [zipEntries, hr, hc, List.flatMap_cons, List.map_append,
            List.map_cons, List.map_nil, List.append_assoc, List.cons_append,
            List.nil_append]
          rw [ihh.1]
        · simp only [zipEntries, hr, hc, List.length_append, List.length_cons,
            List.length_nil]
          omega

/-- C9 witness: two surviving candidates with distinct safe names and
always-succeeding renders produce the four expected entry names. -/
theorem claim9_archive_layout_witness :
    ((zipEntries okRenderR okRenderC
        [⟨{ name := "Jonas Schneider", gender := "Male", origin := "White" },
            {}, "cover letter text", sampleTheme⟩,
         ⟨{ name := "Marie Fischer", gender := "Female", origin := "White" },
            {}, "cover letter text", sampleTheme⟩]).map Prod.fst =
      ["Resumes/Jonas_Schneider_Resume.pdf",
       "Cover_Letters/Jonas_Schneider_CoverLetter.pdf",
       "Resumes/Marie_Fischer_Resume.pdf",
       "Cover_Letters/Marie_Fischer_CoverLetter.pdf"]) ∧
    (zipEntries okRenderR okRenderC
        [⟨{ name := "Jonas Schneider", gender := "Male", origin := "White" },
            {}, "cover letter text", sampleTheme⟩,
         ⟨{ name := "Marie Fischer", gender := "Female", origin := "White" },
            {}, "cover letter text", sampleTheme⟩]).length = 2 * 2 := by
  exact claim9_archive_layout okRenderR okRenderC
    [⟨{ name := "Jonas Schneider", gender := "Male", origin := "White" },
        {}, "cover letter text", sampleTheme⟩,
     ⟨{ name := "Marie Fischer", gender := "Female", origin := "White" },
        {}, "cover letter text", sampleTheme⟩]
    (by decide) (by decide)

/-- C10: the generate-button handler of src/app.py calls
`batch_generate` with six positional arguments while the definition in
src/utils.py has five parameters (and no defaults or varargs), so the
call raises `TypeError` at argument binding, before any candidate is
processed; additionally the handler unpacks the return value as a
2-tuple while `batch_generate` returns a 3-tuple, which would fail even
if the call bound. -/
theorem claim10_app_arity_mismatch :
    bindPositional batch_generate_params app_generate_call_args =
      PyCallOutcome.typeError ∧
    batch_generate_params.length = 5 ∧
    app_generate_call_args.length = 6 ∧
    batch_generate_return_arity ≠ app_generate_unpack_arity := by decide
